import Mathlib

/-!
Verification development for the gridwalk-os layer upload service.

The Rust sources are embedded shallowly:
* `src/layer/core.rs` — `LayerStatus`, `Layer`, `FromRow` decoding and `save`.
* `src/layer/endpoints/patch_tus.rs` — the TUS `PATCH /layers/id` handler,
  including the synchronous ingestion pipeline run on upload completion.
* `src/layer/endpoints/post_tus.rs` — the TUS `POST /layers` handler.

Bytes are modeled as `List Nat`; the filesystem entry for a layer is an
`Option (List Nat)` (none = no file / open failure).  Uuid values and UTC
timestamps are abstracted as `Nat`.  Fallible external collaborators
(database, GDAL, filesystem) are supplied as explicit environment fields
carrying their outcomes.
-/

namespace Gridwalk

/-- Layer status enum, core.rs lines 8-17.  The Rust enum derives strum
`Display` and `EnumString` with no strum attribute, and serde
`rename_all = "lowercase"` which affects only the serde JSON form. -/
inductive LayerStatus where
  | Uploading
  | Processing
  | Ready
  | Error
  | Cancelled
  | Failed
  deriving DecidableEq, Repr

/-- strum `Display` with no `serialize_all` attribute: the variant name is
printed verbatim.  This is what `Layer::save` binds for the status column
(core.rs line 73, `self.status.to_string()`). -/
def LayerStatus.display : LayerStatus → String
  | LayerStatus.Uploading => "Uploading"
  | LayerStatus.Processing => "Processing"
  | LayerStatus.Ready => "Ready"
  | LayerStatus.Error => "Error"
  | LayerStatus.Cancelled => "Cancelled"
  | LayerStatus.Failed => "Failed"

/-- strum `EnumString` with no attribute: `FromStr` accepts exactly the
variant names, case-sensitively.  Used by `Layer::from_row` (core.rs
line 37, `status_str.parse()`). -/
def LayerStatus.fromStr (s : String) : Option LayerStatus :=
  if s = "Uploading" then some LayerStatus.Uploading
  else if s = "Processing" then some LayerStatus.Processing
  else if s = "Ready" then some LayerStatus.Ready
  else if s = "Error" then some LayerStatus.Error
  else if s = "Cancelled" then some LayerStatus.Cancelled
  else if s = "Failed" then some LayerStatus.Failed
  else none

/-- serde `rename_all = "lowercase"` (core.rs line 9): the JSON
serialization form of a status.  It is not used by `save` or `from_row`. -/
def LayerStatus.serdeForm : LayerStatus → String
  | LayerStatus.Uploading => "uploading"
  | LayerStatus.Processing => "processing"
  | LayerStatus.Ready => "ready"
  | LayerStatus.Error => "error"
  | LayerStatus.Cancelled => "cancelled"
  | LayerStatus.Failed => "failed"

/-- The `Layer` struct, core.rs lines 19-29.  `id` abstracts a Uuid,
`created_at` and `updated_at` abstract UTC instants. -/
structure Layer where
  id : Nat
  status : LayerStatus
  name : String
  upload_type : Option String
  total_size : Option Int
  current_offset : Int
  created_at : Nat
  updated_at : Nat
  deriving DecidableEq, Repr

/-- A raw row of the `gridwalk.layers` table: the status column is a plain
string, as stored by the database. -/
structure LayersRow where
  id : Nat
  status : String
  name : String
  upload_type : Option String
  total_size : Option Int
  current_offset : Int
  created_at : Nat
  updated_at : Nat
  deriving DecidableEq, Repr

/-- sqlx error kinds reachable in the embedded code. -/
inductive SqlxError where
  | decodeError (msg : String)
  deriving DecidableEq, Repr

/-- The column values bound by `Layer::save` (core.rs lines 71-80):
the status column receives `self.status.to_string()`, i.e. the strum
`Display` form. -/
def Layer.saveRow (l : Layer) : LayersRow :=
  { id := l.id
    status := l.status.display
    name := l.name
    upload_type := l.upload_type
    total_size := l.total_size
    current_offset := l.current_offset
    created_at := l.created_at
    updated_at := l.updated_at }

/-- `Layer::from_row` (core.rs lines 31-52): the status string is parsed
with `FromStr`; an unknown value becomes a `sqlx::Error::Decode`. -/
def Layer.from_row (r : LayersRow) : Except SqlxError Layer :=
  match LayerStatus.fromStr r.status with
  | none => Except.error (SqlxError.decodeError ("Invalid status value: " ++ r.status))
  | some st =>
      Except.ok
        { id := r.id
          status := st
          name := r.name
          upload_type := r.upload_type
          total_size := r.total_size
          current_offset := r.current_offset
          created_at := r.created_at
          updated_at := r.updated_at }

/-- Byte sequences: one `Nat` per byte. -/
abbrev ByteSeq := List Nat

/-- Decidable equality for `Except` results, used to evaluate the model on
concrete inputs. -/
instance {ε α : Type} [DecidableEq ε] [DecidableEq α] : DecidableEq (Except ε α) := fun a b =>
  match a, b with
  | Except.ok x, Except.ok y =>
      if h : x = y then Decidable.isTrue (by rw [h])
      else Decidable.isFalse (by intro hc; cases hc; exact h rfl)
  | Except.error x, Except.error y =>
      if h : x = y then Decidable.isTrue (by rw [h])
      else Decidable.isFalse (by intro hc; cases hc; exact h rfl)
  | Except.ok _, Except.error _ => Decidable.isFalse (by intro hc; cases hc)
  | Except.error _, Except.ok _ => Decidable.isFalse (by intro hc; cases hc)

/-- Outcomes of the external collaborators used by the completion branch of
`patch_tus` (patch_tus.rs lines 151-324).  Each field carries the result the
corresponding fallible call would return. -/
structure PipelineEnv where
  /-- whether `state.connection.as_vector()` yields a vector connector, line 151. -/
  isVector : Bool
  /-- `open_dataset` for schema extraction, line 160. -/
  openSchemaRes : Except String Unit
  /-- `extract_layer_schema`, line 170. -/
  extractSchemaRes : Except String Unit
  /-- `vector_connector.create_layer`, line 182. -/
  createLayerRes : Except String Unit
  /-- whether the downcast to `PostgisConnector` succeeds, line 192. -/
  isPostgis : Bool
  /-- `pool.begin()`, line 264. -/
  beginOk : Bool
  /-- `open_dataset` for the layer definition inside the blocking task, line 210. -/
  openDefnRes : Except String Unit
  /-- `into_layer(0)` for the definition, line 214. -/
  layerDefnRes : Except String Unit
  /-- `open_dataset` for feature iteration, line 222. -/
  openFeatRes : Except String Unit
  /-- `into_layer(0)` for feature iteration, line 225. -/
  layerFeatRes : Except String Unit
  /-- per-feature `feature_to_insert_statement` outcome, lines 233-242:
  ok carries the generated insert statement. -/
  featureSql : List (Except String String)
  /-- `sqlx::query(sql).execute` outcome inside the transaction, line 275. -/
  execRes : String → Except String Unit
  /-- `tx.commit()`, line 314. -/
  commitOk : Bool

/-- Statements the blocking producer sends on the channel, paired with the
loop's result (patch_tus.rs lines 232-250): all statements generated before
the first generation failure are sent, then the task aborts with the error. -/
def produceStmts : List (Except String String) → List String × Except String Unit
  | [] => ([], Except.ok ())
  | Except.ok s :: rest =>
      (s :: (produceStmts rest).1, (produceStmts rest).2)
  | Except.error e :: _ => ([], Except.error ("SQL generation error: " ++ e))

/-- The blocking GDAL task (patch_tus.rs lines 208-261): any open failure
happens before a single statement is sent; after a clean iteration a count of
zero produced features is an error (lines 252-254).  Returns the statements
sent on the channel and the task's result. -/
def gdalTask (env : PipelineEnv) : List String × Except String Unit :=
  match env.openDefnRes with
  | Except.error e => ([], Except.error ("Failed to open dataset: " ++ e))
  | Except.ok _ =>
  match env.layerDefnRes with
  | Except.error e => ([], Except.error ("Failed to read layer: " ++ e))
  | Except.ok _ =>
  match env.openFeatRes with
  | Except.error e => ([], Except.error ("Failed to open dataset for features: " ++ e))
  | Except.ok _ =>
  match env.layerFeatRes with
  | Except.error e => ([], Except.error ("Failed to read layer for features: " ++ e))
  | Except.ok _ =>
      match (produceStmts env.featureSql).2 with
      | Except.error e => ((produceStmts env.featureSql).1, Except.error e)
      | Except.ok _ =>
          if env.featureSql.length = 0 then
            ((produceStmts env.featureSql).1, Except.error "No features found in dataset")
          else
            ((produceStmts env.featureSql).1, Except.ok ())

/-- The consumer loop (patch_tus.rs lines 272-282): each received statement is
executed inside the transaction, counting inserts, stopping at the first
failure.  Returns the final `inserted_count` and the loop's result. -/
def consumeStmts (execRes : String → Except String Unit) :
    List String → Nat → Nat × Except String Unit
  | [], n => (n, Except.ok ())
  | s :: rest, n =>
      match execRes s with
      | Except.error e =>
          (n, Except.error ("Failed to insert feature " ++ toString (n + 1) ++ ": " ++ e))
      | Except.ok _ => consumeStmts execRes rest (n + 1)

/-- Observable outcome of the completion branch: the surfaced result (ok
carries `inserted_count`) and the number of rows visible in the target
feature table afterwards — inserts become visible only if the transaction
committed, a rollback leaves zero rows. -/
structure PipelineOutcome where
  result : Except String Nat
  committedRows : Nat
  deriving DecidableEq, Repr

/-- The completion branch of `patch_tus` from the connector check to the
commit (patch_tus.rs lines 151-324).  The bounded mpsc channel is modeled by
computing the producer's sent statements first and consuming them in FIFO
order: the consumer executes exactly the statements sent.  The handler checks
the consumer's result before the producer's (lines 285-291 before 294-311);
every failure path after `begin` issues `tx.rollback()`, so rows are
committed only on the final `tx.commit()` success. -/
def runPipeline (env : PipelineEnv) : PipelineOutcome :=
  if env.isVector = false then
    { result := Except.error "Connection is not a vector connector", committedRows := 0 }
  else
  match env.openSchemaRes with
  | Except.error e =>
      { result := Except.error ("Failed to open uploaded dataset: " ++ e), committedRows := 0 }
  | Except.ok _ =>
  match env.extractSchemaRes with
  | Except.error e =>
      { result := Except.error ("Failed to read uploaded file: " ++ e), committedRows := 0 }
  | Except.ok _ =>
  match env.createLayerRes with
  | Except.error e =>
      { result := Except.error ("Failed to create layer table: " ++ e), committedRows := 0 }
  | Except.ok _ =>
  if env.isPostgis = false then
    { result := Except.error "Vector connector is not a PostGIS connector", committedRows := 0 }
  else if env.beginOk = false then
    { result := Except.error "Failed to start transaction", committedRows := 0 }
  else
  match (consumeStmts env.execRes (gdalTask env).1 0).2 with
  | Except.error e => { result := Except.error e, committedRows := 0 }
  | Except.ok _ =>
  match (gdalTask env).2 with
  | Except.error e => { result := Except.error e, committedRows := 0 }
  | Except.ok _ =>
  if env.commitOk then
    { result := Except.ok (consumeStmts env.execRes (gdalTask env).1 0).1
      committedRows := (consumeStmts env.execRes (gdalTask env).1 0).1 }
  else
    { result := Except.error "Failed to commit transaction", committedRows := 0 }

/-- A `PATCH /layers/id` request as seen by the handler (patch_tus.rs
lines 21-72).  Header bytes that fail `to_str` behave like a missing header
in the source (`and_then(to_str.ok)`), so headers are modeled as the
readable string when present.  `uploadOffset`: outer `none` = header absent,
`some none` = value does not parse as i64, `some (some o)` = parsed value. -/
structure PatchRequest where
  tusResumable : Option String
  contentType : Option String
  uploadOffset : Option (Option Int)
  body : ByteSeq

/-- External state and collaborator outcomes for one `patch_tus` call. -/
structure PatchEnv where
  /-- `Layer::get` result, line 75: `none` models a database error or a
  missing row (both surface as 500). -/
  layerRow : Option Layer
  /-- contents of the chunk file at `temp_data_path/<id>`, line 113:
  `none` means the append-mode open fails. -/
  file : Option ByteSeq
  /-- whether `write_all` and `flush` succeed, lines 126-138. -/
  writeOk : Bool
  /-- collaborators of the completion branch. -/
  pipe : PipelineEnv
  /-- whether `layer.save` succeeds, line 328. -/
  saveOk : Bool

/-- Responses `patch_tus` can produce.  `offsetMismatch` models the 409 whose
JSON body carries the numeric `expected` and `received` fields
(lines 92-99); `noContent` carries the `Upload-Offset` response header. -/
inductive PatchResult where
  | noContent (uploadOffset : Int)
  | badRequest (msg : String)
  | stateConflict (msg : String)
  | offsetMismatch (expected : Int) (received : Int)
  | tooLarge (msg : String)
  | internalErr (msg : String)
  deriving DecidableEq, Repr

/-- HTTP status code of a `patch_tus` response. -/
def PatchResult.statusCode : PatchResult → Nat
  | PatchResult.noContent _ => 204
  | PatchResult.badRequest _ => 400
  | PatchResult.stateConflict _ => 409
  | PatchResult.offsetMismatch _ _ => 409
  | PatchResult.tooLarge _ => 413
  | PatchResult.internalErr _ => 500

/-- Observable state after a `patch_tus` call.  `statusTrace` instruments the
model: it records the successive values held by the in-memory
`layer.status`, beginning with the loaded row's status; the only assignment
in the handler is `layer.status = LayerStatus::Ready` at line 147. -/
structure PatchState where
  /-- the persisted `gridwalk.layers` row for this id after the request. -/
  row : Option Layer
  /-- the on-disk chunk file after the request. -/
  file : Option ByteSeq
  /-- rows in the target spatial feature table after the request. -/
  featureRows : Nat
  statusTrace : List LayerStatus
  deriving DecidableEq, Repr

/-- The oversize check of patch_tus.rs lines 102-110: with a known
`total_size`, a chunk whose end would pass it is rejected. -/
def tooBig : Option Int → Int → ByteSeq → Bool
  | some t, off, body => decide (off + (body.length : Int) > t)
  | none, _, _ => false

/-- The `PATCH /layers/id` handler, patch_tus.rs lines 21-349.  `now`
abstracts `chrono::Utc::now()`.  Returns the response and the observable
state afterwards.  On a `write_all`/`flush` failure the chunk file is
modeled as already appended (the write may have reached the file); no claim
depends on that branch. -/
def patch_tus (req : PatchRequest) (env : PatchEnv) (now : Nat) :
    PatchResult × PatchState :=
  let st0 : PatchState :=
    { row := env.layerRow, file := env.file, featureRows := 0, statusTrace := [] }
  match req.tusResumable with
  | none => (PatchResult.badRequest "Missing Tus-Resumable header", st0)
  | some _ =>
  match req.contentType with
  | none => (PatchResult.badRequest "Missing Content-Type header", st0)
  | some ct =>
  if ct ≠ "application/offset+octet-stream" then
    (PatchResult.badRequest "Content-Type must be application/offset+octet-stream", st0)
  else
  match req.uploadOffset with
  | none => (PatchResult.badRequest "Missing Upload-Offset header", st0)
  | some none => (PatchResult.badRequest "Upload-Offset must be a valid integer", st0)
  | some (some upload_offset) =>
  match env.layerRow with
  | none => (PatchResult.internalErr "Database error", st0)
  | some layer =>
  let st1 : PatchState := { st0 with statusTrace := [layer.status] }
  if layer.status ≠ LayerStatus.Uploading then
    (PatchResult.stateConflict "Layer is not in uploading state", st1)
  else if upload_offset ≠ layer.current_offset then
    (PatchResult.offsetMismatch layer.current_offset upload_offset, st1)
  else if tooBig layer.total_size upload_offset req.body then
    (PatchResult.tooLarge "Upload would exceed declared file size", st1)
  else
  match env.file with
  | none => (PatchResult.internalErr "Failed to open upload file", st1)
  | some content =>
  let newFile := content ++ req.body
  if env.writeOk = false then
    (PatchResult.internalErr "Failed to write to upload file", { st1 with file := some newFile })
  else
  let layer1 : Layer :=
    { layer with
        current_offset := layer.current_offset + (req.body.length : Int)
        updated_at := now }
  match layer.total_size with
  | some t =>
      if layer1.current_offset ≥ t then
        let layer2 : Layer := { layer1 with status := LayerStatus.Ready }
        let trace : List LayerStatus := [layer.status, LayerStatus.Ready]
        let p := runPipeline env.pipe
        match p.result with
        | Except.error e =>
            (PatchResult.internalErr e,
              { row := env.layerRow, file := some newFile,
                featureRows := p.committedRows, statusTrace := trace })
        | Except.ok _ =>
            if env.saveOk then
              (PatchResult.noContent layer2.current_offset,
                { row := some layer2, file := some newFile,
                  featureRows := p.committedRows, statusTrace := trace })
            else
              (PatchResult.internalErr "Failed to update layer",
                { row := env.layerRow, file := some newFile,
                  featureRows := p.committedRows, statusTrace := trace })
      else
        if env.saveOk then
          (PatchResult.noContent layer1.current_offset,
            { row := some layer1, file := some newFile,
              featureRows := 0, statusTrace := [layer.status] })
        else
          (PatchResult.internalErr "Failed to update layer",
            { row := env.layerRow, file := some newFile,
              featureRows := 0, statusTrace := [layer.status] })
  | none =>
      if env.saveOk then
        (PatchResult.noContent layer1.current_offset,
          { row := some layer1, file := some newFile,
            featureRows := 0, statusTrace := [layer.status] })
      else
        (PatchResult.internalErr "Failed to update layer",
          { row := env.layerRow, file := some newFile,
            featureRows := 0, statusTrace := [layer.status] })

/-- A `POST /layers` request as seen by the handler (post_tus.rs
lines 20-124).  `uploadLength`: outer `none` = header absent, `some none` =
unreadable or unparsable value, `some (some n)` = parsed i64.  `metaName`
and `metaUploadType` are the values decoded from the `Upload-Metadata`
pairs (base64 decoding of well-formed pairs is abstracted; a pair that
fails to decode is skipped by the source, leaving the field absent). -/
structure PostRequest where
  tusResumable : Option String
  uploadLength : Option (Option Int)
  uploadDeferLength : Option String
  /-- whether the `Upload-Metadata` header is present and readable. -/
  metaPresent : Bool
  metaName : Option String
  metaUploadType : Option String

/-- External state and collaborator outcomes for one `post_tus` call. -/
structure PostEnv where
  /-- the freshly generated layer id, `Uuid::new_v4` abstracted. -/
  newId : Nat
  /-- chunk file already present at `temp_data_path/<id>` before the call. -/
  file : Option ByteSeq
  /-- whether `fs::File::create` succeeds as an I/O operation, line 140.
  `File::create` truncates an existing file rather than failing on it. -/
  createOk : Bool
  /-- whether `layer.save` succeeds, line 147. -/
  saveOk : Bool
  now : Nat

/-- Responses `post_tus` can produce; `created` carries the `Location`
response header. -/
inductive PostResult where
  | created (location : String)
  | badRequest (msg : String)
  | internalErr (msg : String)
  deriving DecidableEq, Repr

/-- HTTP status code of a `post_tus` response. -/
def PostResult.statusCode : PostResult → Nat
  | PostResult.created _ => 201
  | PostResult.badRequest _ => 400
  | PostResult.internalErr _ => 500

/-- Observable state after a `post_tus` call: the persisted row for the new
id and the chunk file at `temp_data_path/<newId>`. -/
structure PostState where
  row : Option Layer
  file : Option ByteSeq
  deriving DecidableEq, Repr

/-- Continuation of `post_tus` after the length headers are resolved
(post_tus.rs lines 78-167): metadata checks, layer construction,
`File::create` (which truncates an existing file rather than failing on
it), and `save`. -/
def postAfterLength (req : PostRequest) (env : PostEnv) (total_size : Option Int)
    (st0 : PostState) : PostResult × PostState :=
  if req.metaPresent = false then
    (PostResult.badRequest "Missing Upload-Metadata header", st0)
  else
  match req.metaName with
  | none => (PostResult.badRequest "Missing name in Upload-Metadata", st0)
  | some nm =>
  match req.metaUploadType with
  | none => (PostResult.badRequest "Missing upload_type in Upload-Metadata", st0)
  | some ut =>
  let layer : Layer :=
    { id := env.newId
      status := LayerStatus.Uploading
      name := nm
      upload_type := some ut
      total_size := total_size
      current_offset := 0
      created_at := env.now
      updated_at := env.now }
  if env.createOk = false then
    (PostResult.internalErr "Failed to create upload file", st0)
  else
  if env.saveOk = false then
    (PostResult.internalErr "Failed to save layer", { row := none, file := some [] })
  else
    (PostResult.created ("/layers/" ++ toString env.newId),
      { row := some layer, file := some [] })

/-- The `POST /layers` handler, post_tus.rs lines 20-167. -/
def post_tus (req : PostRequest) (env : PostEnv) : PostResult × PostState :=
  let st0 : PostState := { row := none, file := env.file }
  match req.tusResumable with
  | none => (PostResult.badRequest "Missing Tus-Resumable header", st0)
  | some _ =>
  match req.uploadLength with
  | some none => (PostResult.badRequest "Upload-Length must be a valid integer", st0)
  | some (some n) => postAfterLength req env (some n) st0
  | none =>
    match req.uploadDeferLength with
    | some dv =>
        if dv ≠ "1" then
          (PostResult.badRequest "Upload-Defer-Length must be 1", st0)
        else
          postAfterLength req env none st0
    | none =>
        (PostResult.badRequest "Either Upload-Length or Upload-Defer-Length header is required",
          st0)

/-! Concrete inputs used by witnesses and counterexamples. -/

/-- A pipeline environment in which every collaborator succeeds and the
dataset yields two features. -/
def pipeAllOk : PipelineEnv :=
  { isVector := true
    openSchemaRes := Except.ok ()
    extractSchemaRes := Except.ok ()
    createLayerRes := Except.ok ()
    isPostgis := true
    beginOk := true
    openDefnRes := Except.ok ()
    layerDefnRes := Except.ok ()
    openFeatRes := Except.ok ()
    layerFeatRes := Except.ok ()
    featureSql := [Except.ok "INSERT 1", Except.ok "INSERT 2"]
    execRes := fun _ => Except.ok ()
    commitOk := true }

/-- A pipeline environment whose initial dataset open fails — bytes that are
not a recognized format. -/
def pipeOpenFail : PipelineEnv :=
  { pipeAllOk with openSchemaRes := Except.error "not recognized as being in a supported file format" }

/-- A layer mid-upload: 2 of 4 declared bytes received. -/
def layerMid : Layer :=
  { id := 9
    status := LayerStatus.Uploading
    name := "mylayer"
    upload_type := some "shp"
    total_size := some 4
    current_offset := 2
    created_at := 0
    updated_at := 0 }

/-- A well-formed PATCH request carrying two bytes at offset 2. -/
def reqTwoAtTwo : PatchRequest :=
  { tusResumable := some "1.0.0"
    contentType := some "application/offset+octet-stream"
    uploadOffset := some (some 2)
    body := [7, 8] }

/-- A patch environment completing layerMid's upload, with a pipeline whose
dataset open fails. -/
def envOpenFail : PatchEnv :=
  { layerRow := some layerMid
    file := some [1, 2]
    writeOk := true
    pipe := pipeOpenFail
    saveOk := true }

/-- A patch environment completing layerMid's upload with an all-ok
pipeline. -/
def envAllOk : PatchEnv :=
  { layerRow := some layerMid
    file := some [1, 2]
    writeOk := true
    pipe := pipeAllOk
    saveOk := true }

/-- A deferred-length layer: like layerMid but with unknown total size. -/
def layerDeferred : Layer := { layerMid with total_size := none }

/-- A patch environment in which the on-disk chunk file is longer than the
layer's persisted current_offset: five bytes on disk against an offset of
two — the state left by an append that crashed between the disk write and
the metadata update. -/
def envStale : PatchEnv :=
  { layerRow := some layerDeferred
    file := some [1, 2, 3, 4, 5]
    writeOk := true
    pipe := pipeAllOk
    saveOk := true }

/-- A well-formed POST request declaring four bytes. -/
def postReqOk : PostRequest :=
  { tusResumable := some "1.0.0"
    uploadLength := some (some 4)
    uploadDeferLength := none
    metaPresent := true
    metaName := some "mylayer"
    metaUploadType := some "shp" }

/-- A POST environment in which a chunk file already exists for the fresh
id. -/
def postEnvExisting : PostEnv :=
  { newId := 5
    file := some [9, 9, 9]
    createOk := true
    saveOk := true
    now := 3 }

/-! Helper lemmas about the pipeline model. -/

/-- When the producer loop finishes cleanly, one statement was sent per
feature. -/
theorem produceStmts_ok_length (l : List (Except String String))
    (h : (produceStmts l).2 = Except.ok ()) :
    (produceStmts l).1.length = l.length := by
  induction l with
  | nil => rfl
  | cons hd tl ih =>
      cases hd with
      | ok s =>
          simp only [produceStmts, List.length_cons] at h ⊢
          exact congrArg (· + 1) (ih h)
      | error e => simp [produceStmts] at h

/-- When the consumer loop finishes cleanly, it executed every received
statement. -/
theorem consumeStmts_ok_count (f : String → Except String Unit) (l : List String) :
    ∀ n, (consumeStmts f l n).2 = Except.ok () → (consumeStmts f l n).1 = n + l.length := by
  induction l with
  | nil => intro n _; simp [consumeStmts]
  | cons s rest ih =>
      intro n h
      simp only [consumeStmts] at h ⊢
      cases hf : f s with
      | error e =>
          rw [hf] at h
          exact Except.noConfusion h
      | ok u =>
          rw [hf] at h
          have hrec := ih (n + 1) h
          show (consumeStmts f rest (n + 1)).1 = n + (s :: rest).length
          simp only [List.length_cons]
          omega

/-- A clean GDAL task sent one statement per feature and saw at least one
feature. -/
theorem gdalTask_ok (env : PipelineEnv) :
    (gdalTask env).2 = Except.ok () →
      (gdalTask env).1.length = env.featureSql.length ∧ env.featureSql ≠ [] := by
  unfold gdalTask
  repeat' split
  all_goals intro h
  all_goals try simp at h
  rename_i hok hlen
  refine ⟨?_, ?_⟩
  · cases hok1 : (produceStmts env.featureSql).2 with
    | ok u => exact produceStmts_ok_length env.featureSql hok1
    | error e => rw [hok1] at hok; cases hok
  · intro hnil
    rw [hnil] at hlen
    simp at hlen

/-- Master characterization of the completion branch: failures leave zero
committed rows; success commits exactly one row per feature, and requires a
non-empty feature list. -/
theorem runPipeline_spec (env : PipelineEnv) :
    (∀ e, (runPipeline env).result = Except.error e → (runPipeline env).committedRows = 0) ∧
    (∀ n, (runPipeline env).result = Except.ok n →
        n = env.featureSql.length ∧ (runPipeline env).committedRows = n ∧
          env.featureSql ≠ []) := by
  unfold runPipeline
  repeat' split
  all_goals try exact ⟨fun _ _ => rfl, fun n h => Except.noConfusion h⟩
  rename_i cs ca hcons gs ga hgdal hcommit
  refine ⟨fun e h => Except.noConfusion h, fun n h => ?_⟩
  have hn : n = (consumeStmts env.execRes (gdalTask env).1 0).1 :=
    (Except.ok.inj h).symm
  cases ca
  cases ga
  have hg := gdalTask_ok env hgdal
  have hc := consumeStmts_ok_count env.execRes (gdalTask env).1 0 hcons
  refine ⟨?_, hn.symm, hg.2⟩
  rw [hn, hc, hg.1]
  simp

/-! Claim theorems. -/

/-- C3: a successful IngestionPipeline run whose producer yielded N features
commits exactly N insert statements to the target feature table; on any
failure the transaction is rolled back so exactly 0 rows exist; a run whose
producer yields zero features always fails and is rolled back. -/
theorem C3_pipeline_all_or_nothing (env : PipelineEnv) :
    (∀ n, (runPipeline env).result = Except.ok n →
        n = env.featureSql.length ∧ (runPipeline env).committedRows = n) ∧
    (∀ e, (runPipeline env).result = Except.error e →
        (runPipeline env).committedRows = 0) ∧
    (env.featureSql = [] →
        (∃ e, (runPipeline env).result = Except.error e) ∧
          (runPipeline env).committedRows = 0) := by
  rcases runPipeline_spec env with ⟨herr, hok⟩
  refine ⟨fun n h => ⟨(hok n h).1, (hok n h).2.1⟩, herr, fun hnil => ?_⟩
  cases hres : (runPipeline env).result with
  | ok n => exact absurd hnil (hok n hres).2.2
  | error e => exact ⟨⟨e, rfl⟩, herr e hres⟩

/-- C3 witness: in the all-ok environment with two features, the run
succeeds with exactly two committed rows. -/
theorem C3_pipeline_all_or_nothing_witness :
    2 = pipeAllOk.featureSql.length ∧ (runPipeline pipeAllOk).committedRows = 2 :=
  (C3_pipeline_all_or_nothing pipeAllOk).1 2 (by decide)

/-- C2: a PATCH whose Upload-Offset differs from the layer's current_offset
(in particular a replay of an already-applied chunk) fails with 409 whose
body carries expected = the server's current_offset and received = the
supplied offset, and neither the chunk file nor the metadata row is
mutated. -/
theorem C2_offset_mismatch_rejected (v : String) (o : Int) (body : ByteSeq)
    (env : PatchEnv) (now : Nat) (layer : Layer)
    (hrow : env.layerRow = some layer)
    (hst : layer.status = LayerStatus.Uploading)
    (hne : o ≠ layer.current_offset) :
    patch_tus
        { tusResumable := some v
          contentType := some "application/offset+octet-stream"
          uploadOffset := some (some o)
          body := body } env now =
      (PatchResult.offsetMismatch layer.current_offset o,
        { row := env.layerRow, file := env.file, featureRows := 0,
          statusTrace := [layer.status] }) ∧
    (PatchResult.offsetMismatch layer.current_offset o).statusCode = 409 := by
  refine ⟨?_, rfl⟩
  simp [patch_tus, hrow, hst, hne]

/-- C2 witness: replaying the first chunk at offset 0 against a layer whose
current offset is 2. -/
theorem C2_offset_mismatch_rejected_witness :
    patch_tus
        { tusResumable := some "1.0.0"
          contentType := some "application/offset+octet-stream"
          uploadOffset := some (some 0)
          body := [7, 8] } envAllOk 5 =
      (PatchResult.offsetMismatch 2 0,
        { row := some layerMid, file := some [1, 2], featureRows := 0,
          statusTrace := [LayerStatus.Uploading] }) ∧
    (PatchResult.offsetMismatch 2 0).statusCode = 409 :=
  C2_offset_mismatch_rejected "1.0.0" 0 [7, 8] envAllOk 5 layerMid rfl rfl (by decide)

/-- C5: with a known total_size, a chunk whose end would exceed it is
rejected with 413 and no mutation occurs: the chunk file is not written and
the metadata row is unchanged. -/
theorem C5_oversize_rejected (v : String) (o t : Int) (body : ByteSeq)
    (env : PatchEnv) (now : Nat) (layer : Layer)
    (hrow : env.layerRow = some layer)
    (hst : layer.status = LayerStatus.Uploading)
    (ho : o = layer.current_offset)
    (htot : layer.total_size = some t)
    (hbig : o + (body.length : Int) > t) :
    patch_tus
        { tusResumable := some v
          contentType := some "application/offset+octet-stream"
          uploadOffset := some (some o)
          body := body } env now =
      (PatchResult.tooLarge "Upload would exceed declared file size",
        { row := env.layerRow, file := env.file, featureRows := 0,
          statusTrace := [layer.status] }) ∧
    (PatchResult.tooLarge "Upload would exceed declared file size").statusCode = 413 := by
  subst ho
  refine ⟨?_, rfl⟩
  have hB : tooBig layer.total_size layer.current_offset body = true := by
    rw [htot]
    simpa [tooBig] using hbig
  simp [patch_tus, hrow, hst, hB]

/-- C5 witness: a 20-byte chunk at offset 2 against a declared total of 4. -/
theorem C5_oversize_rejected_witness :
    patch_tus
        { tusResumable := some "1.0.0"
          contentType := some "application/offset+octet-stream"
          uploadOffset := some (some 2)
          body := [1, 2, 3, 4, 5, 6, 7, 8, 9, 10, 11, 12, 13, 14, 15, 16, 17, 18, 19, 20] }
        envAllOk 5 =
      (PatchResult.tooLarge "Upload would exceed declared file size",
        { row := some layerMid, file := some [1, 2], featureRows := 0,
          statusTrace := [LayerStatus.Uploading] }) ∧
    (PatchResult.tooLarge "Upload would exceed declared file size").statusCode = 413 :=
  C5_oversize_rejected "1.0.0" 2 4
    [1, 2, 3, 4, 5, 6, 7, 8, 9, 10, 11, 12, 13, 14, 15, 16, 17, 18, 19, 20]
    envAllOk 5 layerMid rfl rfl rfl rfl (by decide)

/-- C10: for both POST /layers and PATCH /layers/id only the presence of the
Tus-Resumable header is checked: an absent header is rejected with 400 and
nothing is mutated, while any present value (not only 1.0.0) is accepted —
the outcome does not depend on the header's value. -/
theorem C10_tus_header_presence_only (req : PatchRequest) (env : PatchEnv)
    (now : Nat) (v w : String) (preq : PostRequest) (penv : PostEnv) :
    (patch_tus { req with tusResumable := none } env now =
      (PatchResult.badRequest "Missing Tus-Resumable header",
        { row := env.layerRow, file := env.file, featureRows := 0, statusTrace := [] })) ∧
    (patch_tus { req with tusResumable := some v } env now =
      patch_tus { req with tusResumable := some w } env now) ∧
    (post_tus { preq with tusResumable := none } penv =
      (PostResult.badRequest "Missing Tus-Resumable header",
        { row := none, file := penv.file })) ∧
    (post_tus { preq with tusResumable := some v } penv =
      post_tus { preq with tusResumable := some w } penv) := by
  refine ⟨rfl, ?_, rfl, ?_⟩
  · cases req
    rfl
  · cases preq
    rfl

/-- C10 witness: concrete instances of the four statements, with the header
value 2.0.0 accepted just like 0.9. -/
theorem C10_tus_header_presence_only_witness :
    (patch_tus { reqTwoAtTwo with tusResumable := none } envAllOk 5 =
      (PatchResult.badRequest "Missing Tus-Resumable header",
        { row := envAllOk.layerRow, file := envAllOk.file, featureRows := 0,
          statusTrace := [] })) ∧
    (patch_tus { reqTwoAtTwo with tusResumable := some "2.0.0" } envAllOk 5 =
      patch_tus { reqTwoAtTwo with tusResumable := some "0.9" } envAllOk 5) ∧
    (post_tus { postReqOk with tusResumable := none } postEnvExisting =
      (PostResult.badRequest "Missing Tus-Resumable header",
        { row := none, file := postEnvExisting.file })) ∧
    (post_tus { postReqOk with tusResumable := some "2.0.0" } postEnvExisting =
      post_tus { postReqOk with tusResumable := some "0.9" } postEnvExisting) :=
  C10_tus_header_presence_only reqTwoAtTwo envAllOk 5 "2.0.0" "0.9" postReqOk postEnvExisting

/-- C1 counterexample: a completing PATCH whose ingestion pipeline fails at
the dataset open returns 500 with zero committed rows, but the persisted
layer row is the original one, whose status is Uploading — it is not set to
Failed (the handler returns before `layer.save` and never assigns
`LayerStatus::Failed`). -/
theorem C1_counterexample :
    (patch_tus reqTwoAtTwo envOpenFail 5).1.statusCode = 500 ∧
    (patch_tus reqTwoAtTwo envOpenFail 5).2.featureRows = 0 ∧
    (patch_tus reqTwoAtTwo envOpenFail 5).2.row = some layerMid ∧
    layerMid.status = LayerStatus.Uploading ∧
    layerMid.status ≠ LayerStatus.Failed := by
  decide

/-- C1 amended: for every completing AppendChunk whose ingestion pipeline
fails, the transaction leaves zero committed feature rows and the request
surfaces 500, but the metadata row is not re-persisted: it keeps its old
contents, in particular status Uploading rather than Failed. -/
theorem C1_ingestion_failure_rolls_back_without_failed_status (v : String)
    (o t : Int) (body c : ByteSeq) (env : PatchEnv) (now : Nat) (layer : Layer)
    (e : String)
    (hrow : env.layerRow = some layer)
    (hst : layer.status = LayerStatus.Uploading)
    (ho : o = layer.current_offset)
    (htot : layer.total_size = some t)
    (hfit : ¬ o + (body.length : Int) > t)
    (hfile : env.file = some c)
    (hw : env.writeOk = true)
    (hcomp : layer.current_offset + (body.length : Int) ≥ t)
    (hfail : (runPipeline env.pipe).result = Except.error e) :
    patch_tus
        { tusResumable := some v
          contentType := some "application/offset+octet-stream"
          uploadOffset := some (some o)
          body := body } env now =
      (PatchResult.internalErr e,
        { row := some layer, file := some (c ++ body), featureRows := 0,
          statusTrace := [LayerStatus.Uploading, LayerStatus.Ready] }) ∧
    (PatchResult.internalErr e).statusCode = 500 ∧
    layer.status = LayerStatus.Uploading := by
  subst ho
  refine ⟨?_, rfl, hst⟩
  have hB : tooBig (some t) layer.current_offset body = false := by
    simpa [tooBig] using hfit
  have hrows := (runPipeline_spec env.pipe).1 e hfail
  simp [patch_tus, hrow, hst, hB, htot, hfile, hw, hcomp, hfail, hrows]

/-- C1 amended witness: the concrete completing append with a failing
dataset open. -/
theorem C1_ingestion_failure_rolls_back_without_failed_status_witness :
    patch_tus reqTwoAtTwo envOpenFail 5 =
      (PatchResult.internalErr
          ("Failed to open uploaded dataset: " ++
            "not recognized as being in a supported file format"),
        { row := some layerMid, file := some ([1, 2] ++ [7, 8]), featureRows := 0,
          statusTrace := [LayerStatus.Uploading, LayerStatus.Ready] }) ∧
    (PatchResult.internalErr
        ("Failed to open uploaded dataset: " ++
          "not recognized as being in a supported file format")).statusCode = 500 ∧
    layerMid.status = LayerStatus.Uploading :=
  C1_ingestion_failure_rolls_back_without_failed_status "1.0.0" 2 4 [7, 8] [1, 2]
    envOpenFail 5 layerMid
    ("Failed to open uploaded dataset: " ++
      "not recognized as being in a supported file format")
    rfl rfl rfl rfl (by decide) rfl rfl (by decide) (by decide)

/-- C4 counterexample: a successful completing PATCH moves the in-memory
status directly from Uploading to Ready — Processing never appears in the
status trace — and still answers 204. -/
theorem C4_counterexample :
    (patch_tus reqTwoAtTwo envAllOk 5).1 = PatchResult.noContent 4 ∧
    (patch_tus reqTwoAtTwo envAllOk 5).2.statusTrace =
      [LayerStatus.Uploading, LayerStatus.Ready] ∧
    LayerStatus.Processing ∉ (patch_tus reqTwoAtTwo envAllOk 5).2.statusTrace := by
  decide

/-- C4 amended: on a completing AppendChunk the in-memory status is set
directly from Uploading to Ready before the pipeline runs; Processing is
never assigned; the Ready status is persisted only when the pipeline
succeeds and the save succeeds. -/
theorem C4_status_goes_directly_to_ready (v : String) (o t : Int)
    (body c : ByteSeq) (env : PatchEnv) (now : Nat) (layer : Layer)
    (hrow : env.layerRow = some layer)
    (hst : layer.status = LayerStatus.Uploading)
    (ho : o = layer.current_offset)
    (htot : layer.total_size = some t)
    (hfit : ¬ o + (body.length : Int) > t)
    (hfile : env.file = some c)
    (hw : env.writeOk = true)
    (hcomp : layer.current_offset + (body.length : Int) ≥ t) :
    (patch_tus
        { tusResumable := some v
          contentType := some "application/offset+octet-stream"
          uploadOffset := some (some o)
          body := body } env now).2.statusTrace =
      [LayerStatus.Uploading, LayerStatus.Ready] ∧
    LayerStatus.Processing ∉
      (patch_tus
        { tusResumable := some v
          contentType := some "application/offset+octet-stream"
          uploadOffset := some (some o)
          body := body } env now).2.statusTrace ∧
    (∀ n, (runPipeline env.pipe).result = Except.ok n → env.saveOk = true →
      (patch_tus
        { tusResumable := some v
          contentType := some "application/offset+octet-stream"
          uploadOffset := some (some o)
          body := body } env now).2.row =
        some { layer with
                 status := LayerStatus.Ready
                 current_offset := layer.current_offset + (body.length : Int)
                 updated_at := now }) := by
  subst ho
  have hB : tooBig (some t) layer.current_offset body = false := by
    simpa [tooBig] using hfit
  refine ⟨?_, ?_, ?_⟩
  · cases hres : (runPipeline env.pipe).result with
    | ok n =>
        cases hsv : env.saveOk with
        | true => simp [patch_tus, hrow, hst, hB, htot, hfile, hw, hcomp, hres, hsv]
        | false => simp [patch_tus, hrow, hst, hB, htot, hfile, hw, hcomp, hres, hsv]
    | error e => simp [patch_tus, hrow, hst, hB, htot, hfile, hw, hcomp, hres]
  · cases hres : (runPipeline env.pipe).result with
    | ok n =>
        cases hsv : env.saveOk with
        | true => simp [patch_tus, hrow, hst, hB, htot, hfile, hw, hcomp, hres, hsv]
        | false => simp [patch_tus, hrow, hst, hB, htot, hfile, hw, hcomp, hres, hsv]
    | error e => simp [patch_tus, hrow, hst, hB, htot, hfile, hw, hcomp, hres]
  · intro n hres hsv
    simp [patch_tus, hrow, hst, hB, htot, hfile, hw, hcomp, hres, hsv]

/-- C4 amended witness: the concrete successful completing append persists
Ready, with the trace Uploading then Ready. -/
theorem C4_status_goes_directly_to_ready_witness :
    (patch_tus reqTwoAtTwo envAllOk 5).2.statusTrace =
      [LayerStatus.Uploading, LayerStatus.Ready] ∧
    LayerStatus.Processing ∉ (patch_tus reqTwoAtTwo envAllOk 5).2.statusTrace ∧
    (patch_tus reqTwoAtTwo envAllOk 5).2.row =
      some { layerMid with
               status := LayerStatus.Ready
               current_offset := layerMid.current_offset + ((2 : Nat) : Int)
               updated_at := 5 } := by
  have h := C4_status_goes_directly_to_ready "1.0.0" 2 4 [7, 8] [1, 2] envAllOk 5
    layerMid rfl rfl rfl rfl (by decide) rfl rfl (by decide)
  exact ⟨h.1, h.2.1, h.2.2 2 (by decide) rfl⟩

/-- C6 counterexample: `save` binds the strum Display form of the status,
which is the capitalized variant name, not the lowercase serde form: a layer
in Uploading state is stored with the status string Uploading. -/
theorem C6_counterexample :
    (Layer.saveRow layerMid).status = "Uploading" ∧
    (Layer.saveRow layerMid).status ≠ "uploading" ∧
    LayerStatus.serdeForm layerMid.status = "uploading" := by
  decide

/-- C6 amended: the status column is stored as the capitalized variant name
(strum Display with no serialize_all attribute); decoding accepts exactly
those names and round-trips a saved layer, and decoding any other string —
including the lowercase forms — fails with a decode error. -/
theorem C6_status_display_roundtrip_and_decode (l : Layer) (r : LayersRow)
    (h : LayerStatus.fromStr r.status = none) :
    (Layer.saveRow l).status = l.status.display ∧
    Layer.from_row (Layer.saveRow l) = Except.ok l ∧
    Layer.from_row r =
      Except.error (SqlxError.decodeError ("Invalid status value: " ++ r.status)) := by
  refine ⟨rfl, ?_, ?_⟩
  · have hd : LayerStatus.fromStr l.status.display = some l.status := by
      cases l.status <;> rfl
    simp [Layer.from_row, Layer.saveRow, hd]
  · simp [Layer.from_row, h]

/-- C6 amended witness: the lowercase string uploading is an unknown status
value and fails to decode. -/
theorem C6_status_display_roundtrip_and_decode_witness :
    (Layer.saveRow layerMid).status = layerMid.status.display ∧
    Layer.from_row (Layer.saveRow layerMid) = Except.ok layerMid ∧
    Layer.from_row { Layer.saveRow layerMid with status := "uploading" } =
      Except.error (SqlxError.decodeError ("Invalid status value: " ++ "uploading")) :=
  C6_status_display_roundtrip_and_decode layerMid
    { Layer.saveRow layerMid with status := "uploading" } (by decide)

/-- C7: with five bytes on disk against a persisted current_offset of two —
the state the spec attributes to a crash between the disk append and the
metadata update — the next AppendChunk neither truncates the file back to
offset two nor rejects the append: it succeeds with 204 and appends the new
bytes after the three stale excess bytes. -/
theorem C7_stale_excess_bytes_are_kept :
    (patch_tus reqTwoAtTwo envStale 5).1 = PatchResult.noContent 4 ∧
    (patch_tus reqTwoAtTwo envStale 5).2.file = some [1, 2, 3, 4, 5, 7, 8] ∧
    (patch_tus reqTwoAtTwo envStale 5).2.file ≠ some ([1, 2] ++ [7, 8]) := by
  decide

/-- C9 counterexample: POST with a chunk file already present for the fresh
id succeeds with 201 and truncates the existing entry to empty — it does not
fail with a storage error (`fs::File::create` truncates an existing file). -/
theorem C9_counterexample :
    postEnvExisting.file = some [9, 9, 9] ∧
    (post_tus postReqOk postEnvExisting).1 = PostResult.created "/layers/5" ∧
    (post_tus postReqOk postEnvExisting).1.statusCode = 201 ∧
    (post_tus postReqOk postEnvExisting).2.file = some [] := by
  decide

/-- C9 amended: for every well-formed Create whose filesystem create and
metadata save succeed, the request answers 201 and the chunk entry is the
empty file afterwards, whatever entry existed before: an existing entry is
truncated, never a cause of failure; on the normal path an empty entry is
created. -/
theorem C9_create_truncates_existing_entry (req : PostRequest) (env : PostEnv)
    (v nm ut : String) (n : Int)
    (h1 : req.tusResumable = some v)
    (h2 : req.uploadLength = some (some n))
    (h3 : req.metaPresent = true)
    (h4 : req.metaName = some nm)
    (h5 : req.metaUploadType = some ut)
    (hc : env.createOk = true)
    (hs : env.saveOk = true) :
    post_tus req env =
      (PostResult.created ("/layers/" ++ toString env.newId),
        { row := some
            { id := env.newId
              status := LayerStatus.Uploading
              name := nm
              upload_type := some ut
              total_size := some n
              current_offset := 0
              created_at := env.now
              updated_at := env.now }
          file := some [] }) := by
  simp [post_tus, postAfterLength, h1, h2, h3, h4, h5, hc, hs]

/-- C9 amended witness: the concrete POST against an existing three-byte
entry. -/
theorem C9_create_truncates_existing_entry_witness :
    post_tus postReqOk postEnvExisting =
      (PostResult.created ("/layers/" ++ toString (5 : Nat)),
        { row := some
            { id := 5
              status := LayerStatus.Uploading
              name := "mylayer"
              upload_type := some "shp"
              total_size := some 4
              current_offset := 0
              created_at := 3
              updated_at := 3 }
          file := some [] }) :=
  C9_create_truncates_existing_entry postReqOk postEnvExisting "1.0.0" "mylayer" "shp" 4
    rfl rfl rfl rfl rfl rfl rfl

end Gridwalk
